import Mathlib

/-!
Verification of the question-answering orchestration engine of the
`rag-demo` repository (a Next.js RAG chatbot for FPT School counseling).

The development shallowly embeds the TypeScript services that carry the
decision logic:

* `GeminiService.isCareerRelatedQuestion` (the classifier),
* `RAGService.askQuestion` / `RAGService.processCareerQuestion`
  (the orchestrator with tiered retrieval, web augmentation and
  confidence arithmetic),
* `FeedbackService` (conversation state, feedback statistics and the
  learned-response reuse loop, including `extractQuestionPattern`),
* `WebSearchService.extractKeyInformation` and the metadata layout
  produced by `RAGService.ingestDocuments`.

External network services (embedding, vector index, web search, LLM
generation) are modeled as oracles collected in an `Env` record; each
oracle returns `Except Unit _` so that a throwing service call is a
`.error` value.  Relevance scores and confidences are modeled as `ℚ`
(the TypeScript code performs plain IEEE arithmetic on literals such as
`0.15`, `0.2`, `0.95`; all the constants and claims in scope are exact
in `ℚ`).  JavaScript `undefined` list/field values are normalized to
`[]` resp. `false` where noted.  `String.prototype.toLowerCase` is
modeled by ASCII case mapping (every keyword literal the code compares
against is already lower case).
-/

/-- Substring test on `List Char`: true iff `pat` occurs contiguously in
`s`.  Models `String.prototype.includes` (which is substring
containment). -/
def listHasInfix (pat : List Char) : List Char → Bool
  | [] => pat.isEmpty
  | c :: rest => pat.isPrefixOf (c :: rest) || listHasInfix pat rest

/-- `jsIncludes s pat` models the TypeScript `s.includes(pat)`. -/
def jsIncludes (s pat : String) : Bool :=
  listHasInfix pat.data s.data

/-- Models `String.prototype.toLowerCase` by ASCII case mapping. -/
def jsToLower (s : String) : String :=
  ⟨s.data.map Char.toLower⟩

/-- `containsAny s kws` is true iff some keyword of `kws` occurs in `s`;
models `kws.some(keyword => s.includes(keyword))`. -/
def containsAny (s : String) (kws : List String) : Bool :=
  kws.any (fun k => jsIncludes s k)

/-! ## Classifier (`gemini.ts`, `isCareerRelatedQuestion`)

Keyword lists transcribed from the aggressive classifier in the Gemini
service (the variant with the deny list and the FPT / tech / career /
learning / general-interest tiers). -/

/-- FPT School and education keywords (first positive tier). -/
def fptEducationKeywords : List String :=
  ["fpt", "school", "trường", "đại học", "cao đẳng", "university", "college",
   "học phí", "tuition", "chi phí", "cost", "học bổng", "scholarship",
   "tuyển sinh", "admission", "đăng ký", "register", "nhập học", "enroll",
   "chương trình", "program", "khóa học", "course", "môn học", "subject",
   "giảng viên", "teacher", "thầy cô", "instructor", "mentor",
   "bằng cấp", "degree", "chứng chỉ", "certificate", "diploma",
   "tốt nghiệp", "graduate", "ra trường", "finish", "hoàn thành",
   "thực tập", "internship", "practice", "thực hành", "hands-on",
   "dự án", "project", "bài tập", "assignment", "lab"]

/-- Technology and career keywords (second positive tier). -/
def techCareerKeywords : List String :=
  ["it", "công nghệ thông tin", "information technology", "technology",
   "lập trình", "programming", "code", "coding", "developer", "dev",
   "phần mềm", "software", "ứng dụng", "application", "app",
   "web", "website", "frontend", "backend", "fullstack",
   "data", "dữ liệu", "database", "cơ sở dữ liệu", "sql",
   "ai", "artificial intelligence", "machine learning", "ml",
   "cybersecurity", "an ninh mạng", "bảo mật", "security", "hack",
   "thiết kế", "design", "graphic", "đồ họa", "ui", "ux",
   "marketing", "digital marketing", "social media", "quảng cáo",
   "business", "kinh doanh", "thương mại", "quản lý", "management"]

/-- Career and work-related keywords (third positive tier). -/
def careerKeywords : List String :=
  ["nghề nghiệp", "career", "công việc", "job", "work", "việc làm",
   "kỹ năng", "skill", "năng lực", "ability", "competency",
   "tuyển dụng", "recruitment", "phỏng vấn", "interview", "hiring",
   "lương", "salary", "thu nhập", "income", "wage", "pay",
   "thăng tiến", "promotion", "phát triển", "development", "growth",
   "học tập", "learning", "đào tạo", "training", "education",
   "kinh nghiệm", "experience", "chuyên môn", "expertise", "professional",
   "ngành", "industry", "lĩnh vực", "field", "sector", "domain",
   "cv", "resume", "hồ sơ", "profile", "portfolio",
   "tương lai", "future", "định hướng", "direction", "path", "plan",
   "cơ hội", "opportunity", "triển vọng", "prospect", "potential",
   "mục tiêu", "goal", "target", "objective", "aim"]

/-- Learning and academic keywords (fourth positive tier). -/
def learningKeywords : List String :=
  ["học", "learn", "study", "studies", "academic", "education",
   "kiến thức", "knowledge", "hiểu biết", "understanding",
   "tài liệu", "document", "material", "resource",
   "sách", "book", "reading", "research", "nghiên cứu",
   "thông tin", "information", "info", "data", "detail",
   "hướng dẫn", "guide", "tutorial", "instruction",
   "cách", "how", "làm sao", "way", "method", "approach"]

/-- General interest (interrogative) keywords used together with the
length threshold. -/
def generalInterestKeywords : List String :=
  ["gì", "what", "nào", "which", "như thế nào", "how",
   "tại sao", "why", "bao nhiêu", "how much", "when", "khi nào",
   "ở đâu", "where", "có", "is", "are", "can", "có thể"]

/-- The deny list: questions mentioning these topics are classified as
general conversation. -/
def definitivelyNotCareerKeywords : List String :=
  ["thời tiết", "weather", "ăn uống", "food", "du lịch", "travel",
   "phim", "movie", "nhạc", "music", "thể thao", "sport",
   "game", "trò chơi", "giải trí", "entertainment",
   "yêu đương", "love", "tình yêu", "relationship",
   "sức khỏe", "health", "bệnh", "sick", "y tế", "medical"]

/-- The classifier `GeminiService.isCareerRelatedQuestion`: lower-case
the question, return `false` on any deny-list hit, otherwise walk the
positive keyword tiers and finally default to `true`. -/
def isCareerRelatedQuestion (question : String) : Bool :=
  let questionLower := jsToLower question
  if containsAny questionLower definitivelyNotCareerKeywords then false
  else if containsAny questionLower fptEducationKeywords then true
  else if containsAny questionLower techCareerKeywords then true
  else if containsAny questionLower careerKeywords then true
  else if containsAny questionLower learningKeywords then true
  else if containsAny questionLower generalInterestKeywords
          && questionLower.length > 10 then true
  else true

/-! ## Feedback service (`feedbackService.ts`)

`extractQuestionPattern` applies three global regex replacements and a
trim.  The regexes are embedded with JavaScript semantics: `[0-9]+`
replaces maximal digit runs; `\b` is an ASCII word boundary
(`\w = [A-Za-z0-9_]`); an alternation is tried in source order at each
position, scanning left to right, and scanning resumes right after each
match (boundaries keep looking at the original characters).

The pronoun and company alternatives are transcribed byte-for-byte from
the repository file, which stores the Vietnamese words in a corrupted
(double-encoded) form: the first alternative is `t√¥i`
(`t, U+221A, U+00A5, i`), not `tôi`. -/

/-- ASCII word character, JavaScript regex `\w`. -/
def isWordChar (c : Char) : Bool :=
  (97 ≤ c.toNat && c.toNat ≤ 122) || (65 ≤ c.toNat && c.toNat ≤ 90) ||
  (48 ≤ c.toNat && c.toNat ≤ 57) || c == '_'

/-- Whitespace for JavaScript regex `\s` and `trim` (the characters
occurring in this code base). -/
def isSpaceChar (c : Char) : Bool :=
  c == ' ' || c == '\t' || c == '\n' || c == '\r' ||
  c.toNat == 11 || c.toNat == 12

/-- Word-character test on an optional character; `none` (start or end
of the string) counts as non-word. -/
def isWordOpt : Option Char → Bool
  | none => false
  | some c => isWordChar c

/-- JavaScript `\b`: holds between two (optional) characters iff exactly
one side is a word character. -/
def wordBoundary (a b : Option Char) : Bool :=
  isWordOpt a != isWordOpt b

/-- Replace every maximal run of ASCII digits by the replacement text;
models `.replace(/[0-9]+/g, repl)`.  The fuel argument is the length of
the remaining input (each step consumes at least one character). -/
def replaceDigitsAux (repl : List Char) : Nat → List Char → List Char
  | 0, s => s
  | _ + 1, [] => []
  | fuel + 1, c :: rest =>
    if c.isDigit then
      repl ++ replaceDigitsAux repl fuel (rest.dropWhile Char.isDigit)
    else
      c :: replaceDigitsAux repl fuel rest

/-- Try the alternatives of `\b(a1|a2|…)\b` at the current position
(`prev?` is the preceding original character).  Returns the matched
alternative and the rest of the input after it. -/
def findAltWB (alts : List (List Char)) (prev? : Option Char)
    (s : List Char) : Option (List Char × List Char) :=
  if wordBoundary prev? s.head? then
    alts.findSome? fun alt =>
      if !alt.isEmpty && alt.isPrefixOf s &&
          wordBoundary alt.getLast? (s.drop alt.length).head? then
        some (alt, s.drop alt.length)
      else none
  else none

/-- Global replacement for `\b(a1|a2|…)\b`; models
`.replace(/\b(…)\b/g, repl)`. -/
def replaceAltsWBAux (alts : List (List Char)) (repl : List Char) :
    Nat → Option Char → List Char → List Char
  | 0, _, s => s
  | _ + 1, _, [] => []
  | fuel + 1, prev?, c :: rest =>
    match findAltWB alts prev? (c :: rest) with
    | some (alt, rest1) =>
        repl ++ replaceAltsWBAux alts repl fuel alt.getLast? rest1
    | none => c :: replaceAltsWBAux alts repl fuel (some c) rest

/-- Try the alternatives of `\b(a1|a2|…)\s+\w+` at the current position.
Returns the last character of the matched text together with the rest of
the input (`\s` and `\w` are disjoint, so the greedy scan is exact). -/
def findCompanyWB (alts : List (List Char)) (prev? : Option Char)
    (s : List Char) : Option (Option Char × List Char) :=
  if wordBoundary prev? s.head? then
    alts.findSome? fun alt =>
      if !alt.isEmpty && alt.isPrefixOf s then
        let r1 := s.drop alt.length
        let ws := r1.takeWhile isSpaceChar
        let r2 := r1.dropWhile isSpaceChar
        let wd := r2.takeWhile isWordChar
        let r3 := r2.dropWhile isWordChar
        if !ws.isEmpty && !wd.isEmpty then some (wd.getLast?, r3) else none
      else none
  else none

/-- Global replacement for `\b(a1|a2|…)\s+\w+`; models
`.replace(/\b(…)\s+\w+/g, repl)`. -/
def replaceCompanyAux (alts : List (List Char)) (repl : List Char) :
    Nat → Option Char → List Char → List Char
  | 0, _, s => s
  | _ + 1, _, [] => []
  | fuel + 1, prev?, c :: rest =>
    match findCompanyWB alts prev? (c :: rest) with
    | some (last?, rest1) =>
        repl ++ replaceCompanyAux alts repl fuel last? rest1
    | none => c :: replaceCompanyAux alts repl fuel (some c) rest

/-- Models `String.prototype.trim`. -/
def jsTrim (s : String) : String :=
  ⟨((s.data.dropWhile isSpaceChar).reverse.dropWhile isSpaceChar).reverse⟩

/-- The pronoun alternation of `extractQuestionPattern`, exactly as
stored in the repository file (double-encoded Vietnamese): `t√¥i`,
`m√¨nh`, `em`, `anh`, `ch·ªã`. -/
def pronounAlts : List (List Char) :=
  ["t√¥i".data, "m√¨nh".data, "em".data, "anh".data,
   "ch·ªã".data]

/-- The company alternation of `extractQuestionPattern`, exactly as
stored in the repository file: `c√¥ng ty`, `doanh nghi·ªáp`,
`t·ªï ch·ª©c`. -/
def companyAlts : List (List Char) :=
  ["c√¥ng ty".data, "doanh nghi·ªáp".data,
   "t·ªï ch·ª©c".data]

/-- `FeedbackService.extractQuestionPattern`: lower-case, replace digit
runs by `NUMBER`, replace the pronoun alternation by `USER`, replace the
company alternation plus following word by `COMPANY`, trim. -/
def extractQuestionPattern (question : String) : String :=
  let s1 := (jsToLower question).data
  let s2 := replaceDigitsAux "NUMBER".data s1.length s1
  let s3 := replaceAltsWBAux pronounAlts "USER".data s2.length none s2
  let s4 := replaceCompanyAux companyAlts "COMPANY".data s3.length none s3
  jsTrim ⟨s4⟩

/-- Message roles of the conversation log. -/
inductive Role where
  | user
  | assistant
deriving DecidableEq

/-- One entry of a `ConversationHistory` (`timestamp` omitted: it is
wall-clock environment data used by no decision logic). -/
structure ChatMessage where
  role : Role
  content : String
  isCareerRelated : Option Bool
  sources : Option (List String)
deriving DecidableEq

/-- The projection of a `ChatMessage` returned by
`getConversationContext` (it drops the sources). -/
structure CtxMessage where
  role : Role
  content : String
  isCareerRelated : Option Bool
deriving DecidableEq

/-- Feedback ratings. -/
inductive Rating where
  | positive
  | negative
  | neutral
deriving DecidableEq

/-- A stored `UserFeedback` record (`id` and `timestamp` omitted: they
are generated from the clock and randomness and read by no decision
logic). -/
structure UserFeedback where
  question : String
  answer : String
  rating : Rating
  isCareerRelated : Bool
  userComment : Option String
  sources : Option (List String)
  hasRelevantContent : Option Bool
deriving DecidableEq

/-- The mutable state of the `FeedbackService` singleton: the feedback
list, the conversation map and the learned-answer map (maps modeled as
association lists with unique keys, insertion order preserved). -/
structure FeedbackState where
  feedbacks : List UserFeedback
  conversations : List (String × List ChatMessage)
  learningData : List (String × List String)

/-- The initial (empty) feedback state; `loadStoredData` starts empty in
demo mode. -/
def emptyFeedbackState : FeedbackState :=
  { feedbacks := [], conversations := [], learningData := [] }

/-- Lookup in an association list (JavaScript `Map.get`). -/
def alistGet? {α : Type} (m : List (String × α)) (k : String) : Option α :=
  (m.find? fun p => p.1 == k).map (·.2)

/-- Update in an association list (JavaScript `Map.set`): overwrite the
existing binding or append a new one. -/
def alistSet {α : Type} (m : List (String × α)) (k : String) (v : α) :
    List (String × α) :=
  if (m.find? fun p => p.1 == k).isSome then
    m.map fun p => if p.1 == k then (k, v) else p
  else
    m ++ [(k, v)]

/-- Messages of a conversation, empty when the conversation does not
exist yet (matching `getConversation`'s create-on-demand). -/
def conversationMessages (st : FeedbackState) (cid : String) :
    List ChatMessage :=
  (alistGet? st.conversations cid).getD []

/-- `FeedbackService.addMessage`: append one message to the (possibly
fresh) conversation of `cid`. -/
def addMessage (st : FeedbackState) (cid : String) (role : Role)
    (content : String) (isCareer : Option Bool)
    (sources : Option (List String)) : FeedbackState :=
  let msgs := conversationMessages st cid
  { st with
    conversations :=
      alistSet st.conversations cid
        (msgs ++ [⟨role, content, isCareer, sources⟩]) }

/-- JavaScript `slice(-n)` on lists: the last `n` elements (the whole
list when `n = 0`, since `slice(-0)` is `slice(0)`). -/
def jsSliceLast {α : Type} (n : Nat) (l : List α) : List α :=
  if n = 0 then l else l.drop (l.length - n)

/-- `FeedbackService.getConversationContext`: the last `maxMessages`
messages of the conversation, projected to role/content/flag. -/
def getConversationContext (st : FeedbackState) (cid : String)
    (maxMessages : Nat) : List CtxMessage :=
  match alistGet? st.conversations cid with
  | none => []
  | some msgs =>
      (jsSliceLast maxMessages msgs).map fun m =>
        ⟨m.role, m.content, m.isCareerRelated⟩

/-- `FeedbackService.getLearnedResponses`: the answers recorded for the
normalized pattern of the question (empty when none). -/
def getLearnedResponses (st : FeedbackState) (question : String) :
    List String :=
  (alistGet? st.learningData (extractQuestionPattern question)).getD []

/-- `FeedbackService.learnFromPositiveFeedback`: push the answer onto
the learned list of the question's pattern. -/
def learnFromPositiveFeedback (st : FeedbackState) (fb : UserFeedback) :
    FeedbackState :=
  let pattern := extractQuestionPattern fb.question
  let cur := (alistGet? st.learningData pattern).getD []
  { st with learningData := alistSet st.learningData pattern (cur ++ [fb.answer]) }

/-- `FeedbackService.storeFeedback`: append the record, and learn from
it when the rating is positive. -/
def storeFeedback (st : FeedbackState) (fb : UserFeedback) : FeedbackState :=
  let st1 := { st with feedbacks := st.feedbacks ++ [fb] }
  if fb.rating = Rating.positive then learnFromPositiveFeedback st1 fb else st1

/-- The record returned by `getFeedbackStats`. -/
structure FeedbackStats where
  total : Nat
  positive : Nat
  negative : Nat
  neutral : Nat
  careerRelated : Nat
  generalChat : Nat
deriving DecidableEq

/-- One step of the `forEach` loop of `getFeedbackStats`: increment the
rating bucket and the career/general bucket of one record. -/
def statsStep (acc : FeedbackStats) (fb : UserFeedback) : FeedbackStats :=
  let acc1 :=
    match fb.rating with
    | .positive => { acc with positive := acc.positive + 1 }
    | .negative => { acc with negative := acc.negative + 1 }
    | .neutral => { acc with neutral := acc.neutral + 1 }
  if fb.isCareerRelated then
    { acc1 with careerRelated := acc1.careerRelated + 1 }
  else
    { acc1 with generalChat := acc1.generalChat + 1 }

/-- `FeedbackService.getFeedbackStats`: `total` is the list length, the
other counters are accumulated over the list. -/
def getFeedbackStats (st : FeedbackState) : FeedbackStats :=
  st.feedbacks.foldl statsStep
    { total := st.feedbacks.length, positive := 0, negative := 0,
      neutral := 0, careerRelated := 0, generalChat := 0 }

/-! ## Orchestrator (`ragService.ts`) and its collaborators

External services are oracles in an `Env`; each call is recorded in a
trace of `Ev` events so that theorems can speak about which calls a run
performs.  A `.error ()` oracle result models the service call
throwing. -/

/-- Per-vector metadata as stored in the index.  `RAGService` writes the
keys `content`, `source`, `chunkIndex`, `contentLength` at ingestion
time and reads the keys `text` and `source` at query time, so the model
keeps all of them, each optional. -/
structure VectorMetadata where
  text : Option String
  content : Option String
  source : Option String
  chunkIndex : Option Nat
  contentLength : Option Nat
deriving DecidableEq

/-- The metadata record built for one chunk by
`RAGService.ingestDocuments` (lines 72–81): it stores the chunk text
under `content` and sets no `text` key. -/
def ingestVectorMetadata (content source : String) (chunkIndex contentLength : Nat) :
    VectorMetadata :=
  { text := none, content := some content, source := some source,
    chunkIndex := some chunkIndex, contentLength := some contentLength }

/-- One match returned by `PineconeService.similaritySearch`. -/
structure SearchResult where
  id : String
  score : ℚ
  metadata : Option VectorMetadata
deriving DecidableEq

/-- `result.metadata?.text || ''` (empty when the record or the key is
missing). -/
def metaTextD (r : SearchResult) : String :=
  (r.metadata.bind (·.text)).getD ""

/-- `result.metadata?.source || 'unknown'` (also `'unknown'` for an
empty source string, since `''` is falsy). -/
def metaSourceD (r : SearchResult) : String :=
  let s := (r.metadata.bind (·.source)).getD ""
  if s = "" then "unknown" else s

/-- One web search result (title, url, snippet). -/
structure WebResult where
  title : String
  url : String
  snippet : String
deriving DecidableEq

/-- The summary produced by `WebSearchService.extractKeyInformation`. -/
structure WebInfo where
  combinedContent : String
  sources : List String
deriving DecidableEq

/-- JavaScript `Array.prototype.join` with a separator. -/
def jsJoin (sep : String) : List String → String
  | [] => ""
  | [x] => x
  | x :: y :: rest => x ++ sep ++ jsJoin sep (y :: rest)

/-- `[...new Set(l)]`: deduplicate keeping first occurrences in order. -/
def jsSetDedup (l : List String) : List String :=
  l.foldl (fun acc s => if s ∈ acc then acc else acc ++ [s]) []

/-- `WebSearchService.extractKeyInformation`: bold title plus snippet
per result, joined by blank lines; sources are the result urls. -/
def extractKeyInformation (results : List WebResult) : WebInfo :=
  { combinedContent :=
      jsJoin "\n\n" (results.map fun r => "**" ++ r.title ++ "**\n" ++ r.snippet),
    sources := results.map (·.url) }

/-- The oracle environment: pending randomness, the two user-preference
strings (values of `getUserContext()` / `getPersonalityInstruction()`),
and the four network services, each able to throw. -/
structure Env where
  randIdx : Nat
  userContext : String
  personalityInstruction : String
  embed : String → Except Unit (List ℚ)
  search : List ℚ → Nat → Except Unit (List SearchResult)
  webSearch : String → Nat → Except Unit (List WebResult)
  generate : String → String → String → Except Unit String
  general : String → Except Unit String

/-- Trace events: one per external service invocation. -/
inductive Ev where
  | embedCall
  | indexQuery (topK : Nat)
  | webSearchCall
  | generateCall (prompt : String)
  | generalCall (prompt : String)
deriving DecidableEq

/-- Result record of `processCareerQuestion` (`webSources: undefined`
normalized to `[]`). -/
structure CareerResult where
  answer : String
  sources : List String
  webSources : List String
  hasRelevantContent : Bool
  confidence : ℚ
  usedWebSearch : Bool
deriving DecidableEq

/-- Result record of `askQuestion` (`webSources`/`usedWebSearch` when
absent normalized to `[]`/`false`). -/
structure AnswerResult where
  answer : String
  sources : List String
  webSources : List String
  hasRelevantContent : Bool
  isCareerRelated : Bool
  confidence : ℚ
  usedWebSearch : Bool
deriving DecidableEq

/-- Rendering of a `Role` by string interpolation (`${msg.role}`). -/
def roleStr : Role → String
  | .user => "user"
  | .assistant => "assistant"

/-- The fixed persona/instruction header of
`buildContextualCareerPrompt`, with the user context and personality
instruction interpolated at their template positions. -/
def careerPromptHeader (userContext personalityInstruction : String) : String :=
  "Bạn là chuyên gia tư vấn tuyển sinh của FPT School - trường đào tạo công nghệ hàng đầu Việt Nam. Bạn có kinh nghiệm sâu rộng về các ngành học công nghệ, xu hướng thị trường lao động và định hướng nghề nghiệp cho sinh viên.\n" ++
  "\n" ++
  userContext ++
  "\n" ++
  "\n" ++
  "BỐI CẢNH FPT SCHOOL:\n" ++
  "- Chuyên đào tạo các ngành công nghệ: Công nghệ thông tin, An ninh mạng, Thiết kế đồ họa, Marketing số, Kinh doanh quốc tế\n" ++
  "- Phương pháp học tập thực hành, dự án thực tế từ doanh nghiệp\n" ++
  "- Cơ hội thực tập và làm việc tại hệ sinh thái FPT Corporation\n" ++
  "- Môi trường học tập quốc tế với nhiều chương trình trao đổi\n" ++
  "\n" ++
  "NGUYÊN TẮC TƯ VẤN (QUAN TRỌNG):\n" ++
  "1. **ƯU TIÊN TUYỆT ĐỐI**: Luôn dựa vào thông tin từ tài liệu FPT School được cung cấp\n" ++
  "2. **TẬP TRUNG FPT SCHOOL**: Mọi lời khuyên phải liên kết với các chương trình đào tạo của FPT School\n" ++
  "3. Trả lời bằng tiếng Việt, thân thiện và dễ hiểu cho học sinh THPT và phụ huynh\n" ++
  "4. Định hướng cụ thể về ngành học và nghề nghiệp tại FPT School\n" ++
  "5. **TRÍCH DẪN TÀI LIỆU**: Luôn trích dẫn và tham khảo thông tin từ tài liệu FPT School\n" ++
  "6. Đưa ra lời khuyên thực tế về cơ hội việc làm sau khi tốt nghiệp FPT School\n" ++
  "7. Kết nối với hệ sinh thái FPT Corporation và đối tác doanh nghiệp\n" ++
  "8. " ++
  personalityInstruction ++
  "\n" ++
  "9. **ĐỊNH DẠNG MARKDOWN**: \n" ++
  "   - Dùng **in đậm** cho tên ngành học FPT School, cơ hội nghề nghiệp\n" ++
  "   - Dùng *in nghiêng* để nhấn mạnh điểm mạnh của FPT School\n" ++
  "   - Dùng danh sách (-) để liệt kê chương trình học, kỹ năng FPT đào tạo\n" ++
  "   - Dùng > để trích dẫn TRỰC TIẾP thông tin từ tài liệu FPT School\n" ++
  "   - Dùng `code` cho công nghệ, kỹ năng được dạy tại FPT School\n" ++
  "   \n" ++
  "**CHỈ THỊ ĐẶC BIỆT**: Nếu có thông tin từ tài liệu FPT School, bắt buộc phải sử dụng và trích dẫn. Không được tự suy diễn khi đã có tài liệu chính thức."

/-- The optional conversation-history block appended by
`buildContextualCareerPrompt`: the last three not-explicitly-general
turns rendered as labeled lines, empty when there is nothing to show. -/
def convoSection (conversationContext : List CtxMessage) : String :=
  if conversationContext.length > 0 then
    let contextText :=
      jsJoin "\n"
        ((jsSliceLast 3 (conversationContext.filter
            fun m => m.isCareerRelated ≠ some false)).map
          fun m =>
            (if m.role = Role.user then "Người dùng" else "Trợ lý")
              ++ ": " ++ m.content)
    if contextText ≠ "" then
      "\n\nNGỮ CẢNH CUỘC TRÒ CHUYỆN TRƯỚC ĐÓ:\n" ++ contextText
    else ""
  else ""

/-- The optional document/web context block appended by
`buildContextualCareerPrompt` (omitted when the context string is empty,
matching the falsy check). -/
def docSection (documentContext : String) : String :=
  if documentContext ≠ "" then
    "\n\nTHÔNG TIN TỪ TÀI LIỆU:\n" ++ documentContext
  else ""

/-- `RAGService.buildContextualCareerPrompt`: the fixed header, then the
conversation block, then the document/web context block, then the
question and the output directive (the TypeScript accumulates these same
pieces with `+=`). -/
def buildContextualCareerPrompt (env : Env) (question : String)
    (conversationContext : List CtxMessage) (documentContext : String) : String :=
  careerPromptHeader env.userContext env.personalityInstruction
    ++ convoSection conversationContext
    ++ docSection documentContext
    ++ ("\n\nCÂU HỎI: " ++ question ++ "\n\nTRẢ LỜI (định dạng Markdown):")

/-- `GeminiService.generateMockGeneralResponse`: canned replies keyed by
substring checks on the lower-cased question. -/
def generateMockGeneralResponse (question : String) : String :=
  let ql := jsToLower question
  if jsIncludes ql "xin chào" || jsIncludes ql "hello" || jsIncludes ql "hi" then
    "👋 **Xin chào!** Tôi là trợ lý AI của bạn. \n\nTôi có thể giúp bạn:\n- 💼 Trả lời các câu hỏi về **tư vấn nghề nghiệp**\n- 💬 Trò chuyện thông thường\n\n*Bạn cần tôi giúp gì?*"
  else if jsIncludes ql "khỏe không" || jsIncludes ql "how are you" || jsIncludes ql "thế nào" then
    "Cảm ơn bạn đã hỏi! Tôi đang hoạt động tốt và sẵn sàng hỗ trợ bạn. Bạn có cần tôi giúp gì không?"
  else if jsIncludes ql "cảm ơn" || jsIncludes ql "thank you" || jsIncludes ql "thanks" then
    "Không có gì! Tôi rất vui được giúp đỡ bạn. Nếu bạn có thêm câu hỏi nào khác, đừng ngần ngại hỏi nhé!"
  else if jsIncludes ql "thời tiết" || jsIncludes ql "weather" then
    "Tôi không thể kiểm tra thời tiết hiện tại, nhưng bạn có thể xem dự báo thời tiết trên các ứng dụng như AccuWeather hoặc Weather.com. Bạn có câu hỏi nào khác tôi có thể giúp không?"
  else if jsIncludes ql "mấy giờ" || jsIncludes ql "time" || jsIncludes ql "thời gian" then
    "Tôi không thể xem giờ hiện tại, nhưng bạn có thể kiểm tra trên thiết bị của mình. Tôi có thể giúp bạn với những câu hỏi khác không?"
  else
    "Tôi hiểu bạn đang hỏi về \"" ++ question ++ "\". Đây có vẻ như không phải là câu hỏi về tư vấn nghề nghiệp. Tôi có thể trả lời tốt nhất các câu hỏi liên quan đến sự nghiệp, kỹ năng, và phát triển nghề nghiệp. Bạn có muốn hỏi gì về những chủ đề này không?"

/-- `GeminiService.generateGeneralResponse`: invoke the model; on
success return the trimmed text, on an error fall back to the mock
general response (the method catches its own errors and never
throws). -/
def generateGeneralResponse (env : Env) (question : String) : String × List Ev :=
  match env.general question with
  | .ok t => (jsTrim t, [Ev.generalCall question])
  | .error _ => (generateMockGeneralResponse question, [Ev.generalCall question])

/-- `personalityInstruction` plus `userContext` when the latter is a
non-empty (truthy) string. -/
def generalFullContext (env : Env) : String :=
  if env.userContext ≠ "" then
    env.personalityInstruction ++ env.userContext
  else env.personalityInstruction

/-- The recent-context block rendered by the general-question paths:
the last two context messages as `role: content` lines. -/
def recentContextLines (conversationContext : List CtxMessage) : String :=
  jsJoin "\n"
    ((jsSliceLast 2 conversationContext).map fun m => roleStr m.role ++ ": " ++ m.content)

/-- `RAGService.processGeneralQuestion`: learned-response short-circuit,
otherwise a contextual question assembled from preferences and the last
turns, answered by the general generator. -/
def processGeneralQuestion (env : Env) (st : FeedbackState)
    (question cid : String) : String × List Ev :=
  let conversationContext := getConversationContext st cid 3
  let learnedResponses := getLearnedResponses st question
  if learnedResponses.length > 0 then
    (learnedResponses.getD (env.randIdx % learnedResponses.length) "", [])
  else
    let fullContext := generalFullContext env
    let contextualQuestion :=
      if conversationContext.length > 0 then
        fullContext ++ "\n\nNgữ cảnh cuộc trò chuyện:\n"
          ++ recentContextLines conversationContext
          ++ "\n\nCâu hỏi hiện tại: " ++ question
      else
        fullContext ++ "\n\nCâu hỏi: " ++ question
    generateGeneralResponse env contextualQuestion

/-- `RAGService.processGeneralQuestionWithWebSearch`: web-augmented
general answer; a web-search failure is caught and falls back to the
plain contextual question. -/
def processGeneralQuestionWithWebSearch (env : Env) (st : FeedbackState)
    (question cid : String) : (String × List String) × List Ev :=
  let conversationContext := getConversationContext st cid 3
  let fullContext := generalFullContext env
  match env.webSearch question 3 with
  | .ok results =>
      let webInfo := extractKeyInformation results
      let contextualQuestion :=
        if conversationContext.length > 0 then
          fullContext ++ "\n\nNgữ cảnh cuộc trò chuyện:\n"
            ++ recentContextLines conversationContext
            ++ "\n\nThông tin từ web:\n" ++ webInfo.combinedContent
            ++ "\n\nCâu hỏi hiện tại: " ++ question
        else
          fullContext ++ "\n\nThông tin từ web:\n" ++ webInfo.combinedContent
            ++ "\n\nCâu hỏi: " ++ question
      let gen := generateGeneralResponse env contextualQuestion
      ((gen.1, webInfo.sources), Ev.webSearchCall :: gen.2)
  | .error _ =>
      let contextualQuestion :=
        if conversationContext.length > 0 then
          fullContext ++ "\n\nNgữ cảnh cuộc trò chuyện:\n"
            ++ recentContextLines conversationContext
            ++ "\n\nCâu hỏi hiện tại: " ++ question
        else
          fullContext ++ "\n\nCâu hỏi: " ++ question
      let gen := generateGeneralResponse env contextualQuestion
      ((gen.1, []), Ev.webSearchCall :: gen.2)

/-- The outcome of the optional web-search block inside
`processCareerQuestion`: web sources, web context text, the
`usedWebSearch` flag and the trace of the block. -/
def careerWebBlock (env : Env) (question : String) (webSearchEnabled : Bool) :
    List String × String × Bool × List Ev :=
  if webSearchEnabled then
    match env.webSearch question 3 with
    | .ok results =>
        let webInfo := extractKeyInformation results
        (webInfo.sources, webInfo.combinedContent, true, [Ev.webSearchCall])
    | .error _ => ([], "", false, [Ev.webSearchCall])
  else ([], "", false, [])

/-- The tier logic of `processCareerQuestion` applied to the fetched
result set: filter at score > 0.15 (high tier), optionally augment from
web search, re-filter the same results at score > 0.05 (low tier) when
the high tier is empty, and fall back to general knowledge when both
are.  High-tier confidence is `min(0.95, mean + 0.2)` with a web boost
`min(0.98, · + 0.1)`. -/
def careerTierResponse (env : Env) (conversationContext : List CtxMessage)
    (question : String) (webSearchEnabled : Bool)
    (searchResults : List SearchResult) : Except Unit CareerResult × List Ev :=
  let relevantResults := searchResults.filter fun r => decide ((15/100 : ℚ) < r.score)
  let web := careerWebBlock env question webSearchEnabled
        let webSources := web.1
        let webContext := web.2.1
        let usedWebSearch := web.2.2.1
        let evs0 := [Ev.embedCall, Ev.indexQuery 8] ++ web.2.2.2
        if relevantResults.length = 0 then
          let anyResults := searchResults.filter fun r => decide ((5/100 : ℚ) < r.score)
          if anyResults.length > 0 then
            let contextText := jsJoin "\n\n" (anyResults.map metaTextD)
            let sources := jsSetDedup ((anyResults.map metaSourceD).filter fun s => s ≠ "unknown")
            let combinedContext :=
              if webContext ≠ "" then
                contextText ++ "\n\nTHÔNG TIN BỔ SUNG TỪ WEB:\n" ++ webContext
              else contextText
            let contextualPrompt :=
              buildContextualCareerPrompt env question conversationContext combinedContext
            match env.generate question combinedContext contextualPrompt with
            | .error e => (.error e, evs0 ++ [Ev.generateCall contextualPrompt])
            | .ok answer =>
              (.ok { answer, sources, webSources,
                     hasRelevantContent := true,
                     confidence := if webSources.length > 0 then 13/20 else 11/20,
                     usedWebSearch }, evs0 ++ [Ev.generateCall contextualPrompt])
          else
            let combinedContext :=
              if webContext ≠ "" then "THÔNG TIN TỪ WEB:\n" ++ webContext ++ "\n\n"
              else ""
            let contextualPrompt :=
              buildContextualCareerPrompt env question conversationContext combinedContext
            match env.generate question "" contextualPrompt with
            | .error e => (.error e, evs0 ++ [Ev.generateCall contextualPrompt])
            | .ok answer =>
              (.ok { answer, sources := ["general_knowledge"], webSources,
                     hasRelevantContent := false,
                     confidence := if webSources.length > 0 then 3/4 else 3/5,
                     usedWebSearch }, evs0 ++ [Ev.generateCall contextualPrompt])
        else
          let contextText := jsJoin "\n\n" (relevantResults.map metaTextD)
          let sources := jsSetDedup ((relevantResults.map metaSourceD).filter fun s => s ≠ "unknown")
          let combinedContext :=
            if webContext ≠ "" then
              contextText ++ "\n\nTHÔNG TIN BỔ SUNG TỪ WEB:\n" ++ webContext
            else contextText
          let contextualPrompt :=
            buildContextualCareerPrompt env question conversationContext combinedContext
          match env.generate question combinedContext contextualPrompt with
          | .error e => (.error e, evs0 ++ [Ev.generateCall contextualPrompt])
          | .ok answer =>
            let avgScore := ((relevantResults.map (·.score)).sum) / (relevantResults.length : ℚ)
            let conf0 := min (95/100 : ℚ) (avgScore + 2/10)
            let confidence :=
              if webSources.length > 0 then min (98/100 : ℚ) (conf0 + 1/10) else conf0
            (.ok { answer, sources, webSources, hasRelevantContent := true,
                   confidence, usedWebSearch }, evs0 ++ [Ev.generateCall contextualPrompt])

/-- `RAGService.processCareerQuestion`: learned-response short-circuit;
otherwise embed the question, query the index once with top-K 8, and
apply the tier logic to the single fetched result set. -/
def processCareerQuestion (env : Env) (st : FeedbackState) (question cid : String)
    (webSearchEnabled : Bool) : Except Unit CareerResult × List Ev :=
  let learnedResponses := getLearnedResponses st question
  if learnedResponses.length > 0 then
    (.ok { answer := learnedResponses.getD (env.randIdx % learnedResponses.length) "",
           sources := ["learned_response"], webSources := [],
           hasRelevantContent := true, confidence := 9/10,
           usedWebSearch := false }, [])
  else
    let conversationContext := getConversationContext st cid 5
    match env.embed question with
    | .error e => (.error e, [Ev.embedCall])
    | .ok questionEmbedding =>
      match env.search questionEmbedding 8 with
      | .error e => (.error e, [Ev.embedCall, Ev.indexQuery 8])
      | .ok searchResults =>
          careerTierResponse env conversationContext question webSearchEnabled
            searchResults

/-- The fixed apology text of `askQuestion`'s catch-all handler. -/
def fallbackAnswerVi : String :=
  "Xin lỗi, tôi đang gặp một chút vấn đề kỹ thuật. Bạn có thể thử hỏi lại câu hỏi không?"

/-- The record returned by `askQuestion`'s catch-all handler
(`webSources`/`usedWebSearch` absent, normalized to `[]`/`false`). -/
def fallbackAnswerResult : AnswerResult :=
  { answer := fallbackAnswerVi, sources := [], webSources := [],
    hasRelevantContent := false, isCareerRelated := false,
    confidence := 1/10, usedWebSearch := false }

/-- The body of `askQuestion`'s try block: log the user turn, classify,
run the career or general path, log the assistant turn.  The returned
state is the state at the point where an exception, if any, escaped. -/
def askQuestionTry (env : Env) (st : FeedbackState) (question cid : String)
    (webSearchEnabled : Bool) :
    Except Unit AnswerResult × FeedbackState × List Ev :=
  let st1 := addMessage st cid .user question none none
  if isCareerRelatedQuestion question then
    match processCareerQuestion env st1 question cid webSearchEnabled with
    | (.error e, evs) => (.error e, st1, evs)
    | (.ok r, evs) =>
        let st2 := addMessage st1 cid .assistant r.answer (some true)
          (if r.sources.length > 0 then some r.sources else none)
        (.ok { answer := r.answer, sources := r.sources,
               webSources := r.webSources,
               hasRelevantContent := r.hasRelevantContent,
               isCareerRelated := true, confidence := r.confidence,
               usedWebSearch := r.usedWebSearch }, st2, evs)
  else
    if webSearchEnabled then
      let res := processGeneralQuestionWithWebSearch env st1 question cid
      let st2 := addMessage st1 cid .assistant res.1.1 (some false) none
      (.ok { answer := res.1.1, sources := [], webSources := res.1.2,
             hasRelevantContent := false, isCareerRelated := false,
             confidence := 4/5, usedWebSearch := true }, st2, res.2)
    else
      let res := processGeneralQuestion env st1 question cid
      let st2 := addMessage st1 cid .assistant res.1 (some false) none
      (.ok { answer := res.1, sources := [], webSources := [],
             hasRelevantContent := false, isCareerRelated := false,
             confidence := 4/5, usedWebSearch := false }, st2, res.2)

/-- `RAGService.askQuestion`: the try block with the catch-all handler
that turns any escaped error into the fixed apology result. -/
def askQuestion (env : Env) (st : FeedbackState) (question cid : String)
    (webSearchEnabled : Bool) : AnswerResult × FeedbackState × List Ev :=
  match askQuestionTry env st question cid webSearchEnabled with
  | (.ok r, st1, evs) => (r, st1, evs)
  | (.error _, st1, evs) => (fallbackAnswerResult, st1, evs)

/-! ## Helper lemmas -/

/-- Trace predicate: is the event a vector-index query? -/
def isIndexQueryEv : Ev → Bool
  | .indexQuery _ => true
  | _ => false

/-- Trace predicate: is the event an LLM generation call (grounded or
general)? -/
def isGenerateEv : Ev → Bool
  | .generateCall _ => true
  | .generalCall _ => true
  | _ => false

/-- A benign concrete environment: every service succeeds with fixed
data, web search disabled-by-error, no user preferences. -/
def envBenign : Env :=
  { randIdx := 0, userContext := "", personalityInstruction := "",
    embed := fun _ => .ok [],
    search := fun _ _ => .ok [],
    webSearch := fun _ _ => .error (),
    generate := fun _ _ _ => .ok "ANS",
    general := fun _ => .ok "GEN" }

/-- A feedback state holding one learned answer for the pattern of the
tuition question. -/
def stLearned : FeedbackState :=
  { feedbacks := [], conversations := [],
    learningData :=
      [(extractQuestionPattern "Học phí FPT School bao nhiêu?",
        ["Học phí khoảng 20 triệu một học kỳ."])] }

/-- A single high-scoring (0.4) indexed passage with a source label. -/
def resHigh : SearchResult :=
  { id := "c1", score := 2/5,
    metadata := some
      { text := some "NOI DUNG HOC PHI", content := none,
        source := some "tuyen-sinh.md", chunkIndex := none,
        contentLength := none } }

/-- Environment whose index returns exactly `resHigh`. -/
def envHigh : Env :=
  { envBenign with search := fun _ _ => .ok [resHigh] }

/-- A single indexed passage with score exactly 0.5. -/
def resHalf : SearchResult :=
  { id := "c2", score := 1/2,
    metadata := some
      { text := some "NOI DUNG", content := none, source := some "doc.md",
        chunkIndex := none, contentLength := none } }

/-- Environment whose index returns exactly `resHalf`. -/
def envConf : Env :=
  { envBenign with search := fun _ _ => .ok [resHalf] }

/-- The result record produced by `envConf` on the tuition question. -/
def rConf : CareerResult :=
  { answer := "ANS", sources := ["doc.md"], webSources := [],
    hasRelevantContent := true, confidence := 7/10, usedWebSearch := false }

/-- Environment whose embedding service always throws. -/
def envEmbedFail : Env :=
  { envBenign with embed := fun _ => .error () }

/-- Environment whose grounded generation service always throws. -/
def envGenFail : Env :=
  { envBenign with generate := fun _ _ _ => .error () }

/-- The prompt carried by a grounded generation event, if any. -/
def evPrompt : Ev → Option String
  | .generateCall p => some p
  | _ => none

/-- A high-scoring (0.4) index match whose metadata is exactly what
`ingestDocuments` writes for a chunk: the text lives under `content`,
there is no `text` key. -/
def resIngest : SearchResult :=
  { id := "chunk-0", score := 2/5,
    metadata := some (ingestVectorMetadata "ZNOIDUNGHOCPHI" "tuyen-sinh.md" 0 14) }

/-- Environment whose index returns exactly `resIngest`. -/
def envIngest : Env :=
  { envBenign with search := fun _ _ => .ok [resIngest] }

/-- The result record of the `envIngest` run. -/
def rIngest : CareerResult :=
  { answer := "ANS", sources := ["tuyen-sinh.md"], webSources := [],
    hasRelevantContent := true, confidence := 3/5, usedWebSearch := false }

/-! ## Theorems -/

/-- C1: the classifier returns `false` exactly when the lower-cased
question contains a deny-list term — every positive tier and the default
return `true`, so a question with no deny-list term (in particular the
empty string) is always classified as career-related. -/
theorem classifier_false_iff_deny_term (q : String) :
    isCareerRelatedQuestion q
      = !(containsAny (jsToLower q) definitivelyNotCareerKeywords)
    ∧ isCareerRelatedQuestion "" = true := by
  refine ⟨?_, by decide⟩
  unfold isCareerRelatedQuestion
  cases h : containsAny (jsToLower q) definitivelyNotCareerKeywords <;>
    (simp only [h, Bool.not_false, Bool.not_true, if_true, if_false];
      repeat' split) <;> simp_all

/-- C8: evaluation of `extractQuestionPattern` at the spec's example
pair.  Because the stored pronoun alternation is the corrupted `t√¥i`
(not `tôi`), the first question keeps its pronoun while the second one
(plain-ASCII `anh`) gets the `USER` placeholder, so the two patterns
differ and a learned answer for one is not retrievable for the other. -/
theorem extractQuestionPattern_corrupted_pronouns :
    extractQuestionPattern "Tôi cần 3 năm kinh nghiệm"
        = "tôi cần NUMBER năm kinh nghiệm"
    ∧ extractQuestionPattern "Anh cần 10 năm kinh nghiệm"
        = "USER cần NUMBER năm kinh nghiệm"
    ∧ extractQuestionPattern "Tôi cần 3 năm kinh nghiệm"
        ≠ extractQuestionPattern "Anh cần 10 năm kinh nghiệm" :=
  ⟨rfl, rfl, by decide⟩

/-- One `statsStep` adds exactly one to the rating buckets, exactly one
to the career/general buckets, and leaves `total` unchanged. -/
theorem statsStep_counts (acc : FeedbackStats) (fb : UserFeedback) :
    (statsStep acc fb).positive + (statsStep acc fb).negative
        + (statsStep acc fb).neutral
      = acc.positive + acc.negative + acc.neutral + 1
    ∧ (statsStep acc fb).careerRelated + (statsStep acc fb).generalChat
      = acc.careerRelated + acc.generalChat + 1
    ∧ (statsStep acc fb).total = acc.total := by
  unfold statsStep
  rcases fb with ⟨q, a, r, c, u, s, h⟩
  cases r <;> cases c <;> simp <;> omega

/-- Folding `statsStep` over a list adds the list length to both bucket
sums and keeps `total`. -/
theorem statsStep_fold_counts (l : List UserFeedback) :
    ∀ acc : FeedbackStats,
      (l.foldl statsStep acc).positive + (l.foldl statsStep acc).negative
          + (l.foldl statsStep acc).neutral
        = acc.positive + acc.negative + acc.neutral + l.length
      ∧ (l.foldl statsStep acc).careerRelated
          + (l.foldl statsStep acc).generalChat
        = acc.careerRelated + acc.generalChat + l.length
      ∧ (l.foldl statsStep acc).total = acc.total := by
  induction l with
  | nil => intro acc; simp
  | cons fb tl ih =>
    intro acc
    have hstep := statsStep_counts acc fb
    have htl := ih (statsStep acc fb)
    simp only [List.foldl_cons, List.length_cons]
    omega

/-- `storeFeedback` appends exactly one record to the feedback list
(the positive-feedback learning touches only `learningData`). -/
theorem storeFeedback_feedbacks (st : FeedbackState) (fb : UserFeedback) :
    (storeFeedback st fb).feedbacks = st.feedbacks ++ [fb] := by
  unfold storeFeedback learnFromPositiveFeedback
  split <;> rfl

/-- The feedback list after a sequence of `storeFeedback` calls is the
initial list followed by the inputs in order. -/
theorem foldl_storeFeedback_feedbacks (inputs : List UserFeedback) :
    ∀ st : FeedbackState,
      (inputs.foldl storeFeedback st).feedbacks = st.feedbacks ++ inputs := by
  induction inputs with
  | nil => intro st; simp
  | cons fb tl ih =>
    intro st
    simp only [List.foldl_cons]
    rw [ih (storeFeedback st fb), storeFeedback_feedbacks]
    simp

/-- C10: after any sequence of `storeFeedback` calls starting from the
empty state, `getFeedbackStats` returns counts with
`total = positive + negative + neutral` and
`total = careerRelated + generalChat`: every record lands in exactly one
rating bucket and exactly one grounding bucket. -/
theorem feedbackStats_partition (inputs : List UserFeedback) :
    (getFeedbackStats (inputs.foldl storeFeedback emptyFeedbackState)).total
      = (getFeedbackStats (inputs.foldl storeFeedback emptyFeedbackState)).positive
        + (getFeedbackStats (inputs.foldl storeFeedback emptyFeedbackState)).negative
        + (getFeedbackStats (inputs.foldl storeFeedback emptyFeedbackState)).neutral
    ∧ (getFeedbackStats (inputs.foldl storeFeedback emptyFeedbackState)).total
      = (getFeedbackStats (inputs.foldl storeFeedback emptyFeedbackState)).careerRelated
        + (getFeedbackStats (inputs.foldl storeFeedback emptyFeedbackState)).generalChat := by
  have hf : (inputs.foldl storeFeedback emptyFeedbackState).feedbacks = inputs := by
    simpa [emptyFeedbackState] using
      foldl_storeFeedback_feedbacks inputs emptyFeedbackState
  unfold getFeedbackStats
  rw [hf]
  obtain ⟨h1, h2, h3⟩ := statsStep_fold_counts inputs
    { total := inputs.length, positive := 0, negative := 0,
      neutral := 0, careerRelated := 0, generalChat := 0 }
  simp only [] at h1 h2 h3
  omega

/-- The fold underlying `jsSetDedup` preserves nodup accumulators and
yields membership in accumulator-or-input. -/
theorem jsSetDedup_fold (l : List String) :
    ∀ acc : List String, acc.Nodup →
      (l.foldl (fun acc s => if s ∈ acc then acc else acc ++ [s]) acc).Nodup
      ∧ ∀ a, a ∈ l.foldl (fun acc s => if s ∈ acc then acc else acc ++ [s]) acc
          ↔ a ∈ acc ∨ a ∈ l := by
  induction l with
  | nil => intro acc hacc; simpa using hacc
  | cons s tl ih =>
    intro acc hacc
    simp only [List.foldl_cons]
    by_cases hs : s ∈ acc
    · obtain ⟨h1, h2⟩ := ih acc hacc
      simp only [if_pos hs]
      refine ⟨h1, fun a => ?_⟩
      rw [h2 a]
      constructor
      · rintro (ha | ha)
        · exact Or.inl ha
        · exact Or.inr (List.mem_cons_of_mem _ ha)
      · rintro (ha | ha)
        · exact Or.inl ha
        · rcases List.mem_cons.mp ha with rfl | ha
          · exact Or.inl hs
          · exact Or.inr ha
    · have hacc1 : (acc ++ [s]).Nodup := by
        simp [List.nodup_append, hacc, hs]
      obtain ⟨h1, h2⟩ := ih (acc ++ [s]) hacc1
      simp only [if_neg hs]
      refine ⟨h1, fun a => ?_⟩
      rw [h2 a]
      simp only [List.mem_append, List.mem_singleton, List.mem_cons]
      tauto

/-- `jsSetDedup` returns a duplicate-free list. -/
theorem jsSetDedup_nodup (l : List String) : (jsSetDedup l).Nodup :=
  (jsSetDedup_fold l [] List.nodup_nil).1

/-- `jsSetDedup` preserves membership. -/
theorem mem_jsSetDedup (l : List String) (a : String) :
    a ∈ jsSetDedup l ↔ a ∈ l := by
  have h := (jsSetDedup_fold l [] List.nodup_nil).2 a
  simpa [jsSetDedup] using h

/-- Every member of a joined list is a contiguous block of the join. -/
theorem jsJoin_decomp (sep : String) (l : List String) :
    ∀ t ∈ l, ∃ a b, jsJoin sep l = a ++ t ++ b := by
  induction l with
  | nil => intro t ht; cases ht
  | cons x rest ih =>
    intro t ht
    rcases List.mem_cons.mp ht with rfl | ht
    · cases rest with
      | nil => exact ⟨"", "", by simp [jsJoin]⟩
      | cons y ys =>
        refine ⟨"", sep ++ jsJoin sep (y :: ys), ?_⟩
        simp [jsJoin, String.append_assoc]
    · have hrest : rest ≠ [] := List.ne_nil_of_mem ht
      obtain ⟨a, b, hab⟩ := ih t ht
      cases rest with
      | nil => cases ht
      | cons y ys =>
        refine ⟨x ++ sep ++ a, b, ?_⟩
        simp [jsJoin, hab, String.append_assoc]

/-- An indexed `getD` with an in-bounds index is a member. -/
theorem getD_mem_of_lt (l : List String) (i : Nat) (d : String)
    (h : i < l.length) : l.getD i d ∈ l := by
  rw [List.getD_eq_getElem?_getD, List.getElem?_eq_getElem h]
  exact List.getElem_mem h

/-- `addMessage` never touches the learned-answer map, so learned
lookups are unchanged by conversation writes. -/
theorem getLearnedResponses_addMessage (st : FeedbackState) (cid : String)
    (role : Role) (content : String) (ic : Option Bool)
    (src : Option (List String)) (q : String) :
    getLearnedResponses (addMessage st cid role content ic src) q
      = getLearnedResponses st q := rfl

/-- The document-context argument of `buildContextualCareerPrompt`
occurs contiguously in the produced prompt. -/
theorem buildContextualCareerPrompt_decomp (env : Env) (question : String)
    (ctx : List CtxMessage) (doc : String) :
    ∃ a b, buildContextualCareerPrompt env question ctx doc = a ++ (doc ++ b) := by
  by_cases hdoc : doc = ""
  · subst hdoc
    refine ⟨careerPromptHeader env.userContext env.personalityInstruction
        ++ convoSection ctx,
      "\n\nCÂU HỎI: " ++ question ++ "\n\nTRẢ LỜI (định dạng Markdown):", ?_⟩
    simp [buildContextualCareerPrompt, docSection, String.append_assoc]
  · refine ⟨careerPromptHeader env.userContext env.personalityInstruction
        ++ convoSection ctx ++ "\n\nTHÔNG TIN TỪ TÀI LIỆU:\n",
      "\n\nCÂU HỎI: " ++ question ++ "\n\nTRẢ LỜI (định dạng Markdown):", ?_⟩
    simp [buildContextualCareerPrompt, docSection, hdoc, String.append_assoc]

/-- The web block logs at most one event, and only a web-search one. -/
theorem careerWebBlock_trace (env : Env) (q : String) (web : Bool) :
    (careerWebBlock env q web).2.2.2 = []
    ∨ (careerWebBlock env q web).2.2.2 = [Ev.webSearchCall] := by
  unfold careerWebBlock
  by_cases hw : web
  · simp only [hw, if_true]
    cases env.webSearch q 3 <;> simp
  · simp [hw]

/-- With no learned answer and successful embedding and index calls,
`processCareerQuestion` is the tier logic applied to the single fetched
result set. -/
theorem processCareerQuestion_after_search (env : Env) (st : FeedbackState)
    (q cid : String) (web : Bool) (v : List ℚ) (rs : List SearchResult)
    (hlearn : getLearnedResponses st q = [])
    (hemb : env.embed q = .ok v)
    (hsearch : env.search v 8 = .ok rs) :
    processCareerQuestion env st q cid web
      = careerTierResponse env (getConversationContext st cid 5) q web rs := by
  unfold processCareerQuestion
  rw [hlearn]
  simp only [List.length_nil, gt_iff_lt, Nat.lt_irrefl, if_false]
  rw [hemb]
  dsimp only
  rw [hsearch]

/-- C3: `askQuestion` always returns a value: for every environment
(services may throw arbitrarily) and every input, the call evaluates to
a result triple, and the result either is the try block's successful
answer or — when the try block escaped with an error — the fixed apology
answer with confidence 0.1, empty sources and no relevant content. -/
theorem askQuestion_total_boundary (env : Env) (st : FeedbackState)
    (q cid : String) (web : Bool) :
    ∃ r st1 evs, askQuestion env st q cid web = (r, st1, evs)
      ∧ ((askQuestionTry env st q cid web).1 = .ok r
        ∨ (r.answer = fallbackAnswerVi ∧ r.sources = []
            ∧ r.hasRelevantContent = false ∧ r.confidence = 1/10
            ∧ r.isCareerRelated = false)) := by
  rcases h : askQuestionTry env st q cid web with ⟨res, st1, evs⟩
  cases res with
  | ok r =>
    refine ⟨r, st1, evs, ?_, Or.inl (by simp [h])⟩
    unfold askQuestion
    simp [h]
  | error e =>
    refine ⟨fallbackAnswerResult, st1, evs, ?_, Or.inr ⟨rfl, rfl, rfl, rfl, rfl⟩⟩
    unfold askQuestion
    simp [h]

/-- C4: on a grounded-routed question with at least one learned
response, `askQuestion` answers with one of the recorded candidate
texts, confidence exactly 0.9, sources exactly `["learned_response"]`,
`hasRelevantContent = true`, and an empty service-call trace: no
embedding, no index query, no web search and no generation call is
performed. -/
theorem learned_response_shortcircuit (env : Env) (st : FeedbackState)
    (q cid : String) (web : Bool)
    (hcareer : isCareerRelatedQuestion q = true)
    (hlearn : getLearnedResponses st q ≠ []) :
    (askQuestion env st q cid web).1.answer ∈ getLearnedResponses st q
    ∧ (askQuestion env st q cid web).1.confidence = 9/10
    ∧ (askQuestion env st q cid web).1.sources = ["learned_response"]
    ∧ (askQuestion env st q cid web).1.hasRelevantContent = true
    ∧ (askQuestion env st q cid web).2.2 = [] := by
  have hlen : 0 < (getLearnedResponses st q).length := List.length_pos.mpr hlearn
  unfold askQuestion askQuestionTry processCareerQuestion
  simp only [getLearnedResponses_addMessage, hcareer, if_true, gt_iff_lt, hlen,
    if_pos]
  refine ⟨?_, trivial, trivial, trivial, trivial⟩
  exact getD_mem_of_lt _ _ _ (Nat.mod_lt _ hlen)

/-- Witness for the learned-response short-circuit at a concrete
career-related question with one recorded answer. -/
theorem learned_response_shortcircuit_witness :
    isCareerRelatedQuestion "Học phí FPT School bao nhiêu?" = true
    ∧ getLearnedResponses stLearned "Học phí FPT School bao nhiêu?" ≠ []
    ∧ (askQuestion envBenign stLearned "Học phí FPT School bao nhiêu?" "s" false).1.answer
        ∈ getLearnedResponses stLearned "Học phí FPT School bao nhiêu?" :=
  ⟨by decide, by decide,
    (learned_response_shortcircuit envBenign stLearned
      "Học phí FPT School bao nhiêu?" "s" false (by decide) (by decide)).1⟩

/-- Every run of the tier logic logs exactly one index query, and it
carries top-K 8. -/
theorem careerTier_trace (env : Env) (ctx : List CtxMessage) (q : String)
    (web : Bool) (rs : List SearchResult) :
    (careerTierResponse env ctx q web rs).2.filter isIndexQueryEv
      = [Ev.indexQuery 8] := by
  have hwb := careerWebBlock_trace env q web
  simp only [careerTierResponse]
  rcases hwb with hwb | hwb <;> rw [hwb] <;> (repeat' split) <;>
    simp [isIndexQueryEv, List.filter_append]

/-- When the high-tier filter is non-empty, a successful tier-logic run
reports the high tier: sources are the deduplicated labels of the
high-tier passages, the answer counts as grounded, web fields come from
the web block, and the confidence is the capped mean-plus-bonus. -/
theorem careerTier_high (env : Env) (ctx : List CtxMessage) (q : String)
    (web : Bool) (rs : List SearchResult) (r : CareerResult)
    (hhigh : rs.filter (fun x => decide ((15/100 : ℚ) < x.score)) ≠ [])
    (hr : (careerTierResponse env ctx q web rs).1 = .ok r) :
    r.sources = jsSetDedup
        (((rs.filter fun x => decide ((15/100 : ℚ) < x.score)).map metaSourceD).filter
          fun s => s ≠ "unknown")
    ∧ r.hasRelevantContent = true
    ∧ r.webSources = (careerWebBlock env q web).1
    ∧ r.usedWebSearch = (careerWebBlock env q web).2.2.1
    ∧ r.confidence =
        (if (careerWebBlock env q web).1.length > 0 then
          min (98/100 : ℚ)
            (min (95/100 : ℚ)
              ((((rs.filter fun x => decide ((15/100 : ℚ) < x.score)).map (·.score)).sum
                / ((rs.filter fun x => decide ((15/100 : ℚ) < x.score)).length : ℚ)) + 2/10)
              + 1/10)
        else
          min (95/100 : ℚ)
            ((((rs.filter fun x => decide ((15/100 : ℚ) < x.score)).map (·.score)).sum
              / ((rs.filter fun x => decide ((15/100 : ℚ) < x.score)).length : ℚ)) + 2/10)) := by
  have hlen : ¬ ((rs.filter fun x => decide ((15/100 : ℚ) < x.score)).length = 0) := by
    simpa [List.length_eq_zero] using hhigh
  simp only [careerTierResponse] at hr
  rw [if_neg hlen] at hr
  split at hr
  · simp at hr
  · next heq =>
      simp only at hr
      rw [Except.ok.injEq] at hr
      subst hr
      exact ⟨rfl, rfl, rfl, rfl, rfl⟩

/-- When the high-tier filter is empty but the low-tier one is not, a
successful tier-logic run reports the low tier: sources are the
deduplicated labels of the low-tier passages, the answer still counts as
grounded, and the confidence is the fixed low-tier value (0.65 with web
sources, 0.55 without). -/
theorem careerTier_low (env : Env) (ctx : List CtxMessage) (q : String)
    (web : Bool) (rs : List SearchResult) (r : CareerResult)
    (hhigh : rs.filter (fun x => decide ((15/100 : ℚ) < x.score)) = [])
    (hlow : rs.filter (fun x => decide ((5/100 : ℚ) < x.score)) ≠ [])
    (hr : (careerTierResponse env ctx q web rs).1 = .ok r) :
    r.sources = jsSetDedup
        (((rs.filter fun x => decide ((5/100 : ℚ) < x.score)).map metaSourceD).filter
          fun s => s ≠ "unknown")
    ∧ r.hasRelevantContent = true
    ∧ r.confidence =
        (if (careerWebBlock env q web).1.length > 0 then (13/20 : ℚ) else 11/20) := by
  have hlen : (rs.filter fun x => decide ((15/100 : ℚ) < x.score)).length = 0 := by
    simp [hhigh]
  have hlen2 : 0 < (rs.filter fun x => decide ((5/100 : ℚ) < x.score)).length :=
    List.length_pos.mpr hlow
  simp only [careerTierResponse] at hr
  rw [if_pos hlen] at hr
  rw [if_pos hlen2] at hr
  split at hr
  · simp at hr
  · next heq =>
      simp only at hr
      rw [Except.ok.injEq] at hr
      subst hr
      exact ⟨rfl, rfl, rfl⟩

/-- C2: with no learned answer and a successful embed and index call,
the run logs exactly one index query (top-K 8) — both tiers are
evaluated on that single fetched result set — and tier selection is
monotonic: whenever the high-tier filter (score > 0.15) is non-empty, a
successful result is built from exactly those passages; only when it is
empty is the same result set re-filtered at score > 0.05. -/
theorem retrieval_single_query_tier_monotonic (env : Env) (st : FeedbackState)
    (q cid : String) (web : Bool) (v : List ℚ) (rs : List SearchResult)
    (hlearn : getLearnedResponses st q = [])
    (hemb : env.embed q = .ok v)
    (hsearch : env.search v 8 = .ok rs) :
    (processCareerQuestion env st q cid web).2.filter isIndexQueryEv
        = [Ev.indexQuery 8]
    ∧ (rs.filter (fun x => decide ((15/100 : ℚ) < x.score)) ≠ [] →
        ∀ r, (processCareerQuestion env st q cid web).1 = .ok r →
          r.sources = jsSetDedup
              (((rs.filter fun x => decide ((15/100 : ℚ) < x.score)).map
                metaSourceD).filter fun s => s ≠ "unknown")
          ∧ r.hasRelevantContent = true)
    ∧ (rs.filter (fun x => decide ((15/100 : ℚ) < x.score)) = [] →
        rs.filter (fun x => decide ((5/100 : ℚ) < x.score)) ≠ [] →
        ∀ r, (processCareerQuestion env st q cid web).1 = .ok r →
          r.sources = jsSetDedup
              (((rs.filter fun x => decide ((5/100 : ℚ) < x.score)).map
                metaSourceD).filter fun s => s ≠ "unknown")
          ∧ r.hasRelevantContent = true) := by
  rw [processCareerQuestion_after_search env st q cid web v rs hlearn hemb hsearch]
  refine ⟨careerTier_trace env (getConversationContext st cid 5) q web rs,
    fun hh r hr => ?_, fun hh hl r hr => ?_⟩
  · have h := careerTier_high env (getConversationContext st cid 5) q web rs r hh hr
    exact ⟨h.1, h.2.1⟩
  · have h := careerTier_low env (getConversationContext st cid 5) q web rs r hh hl hr
    exact ⟨h.1, h.2.1⟩

/-- Witness for the single-query tier theorem at a concrete
environment. -/
theorem retrieval_single_query_witness :
    getLearnedResponses emptyFeedbackState "học phí" = []
    ∧ envHigh.embed "học phí" = .ok []
    ∧ envHigh.search [] 8 = .ok [resHigh]
    ∧ (processCareerQuestion envHigh emptyFeedbackState "học phí" "s" false).2.filter
        isIndexQueryEv = [Ev.indexQuery 8] :=
  ⟨by decide, rfl, rfl,
    (retrieval_single_query_tier_monotonic envHigh emptyFeedbackState "học phí"
      "s" false [] [resHigh] (by decide) rfl rfl).1⟩

/-- C5: whenever the high tier is non-empty and the run succeeds, the
returned confidence is `min(0.95, m + 0.2)` for mean high-tier score
`m`, boosted to `min(0.98, · + 0.1)` exactly when at least one web
source contributed. -/
theorem highTier_confidence_formula (env : Env) (st : FeedbackState)
    (q cid : String) (web : Bool) (v : List ℚ) (rs : List SearchResult)
    (r : CareerResult)
    (hlearn : getLearnedResponses st q = [])
    (hemb : env.embed q = .ok v)
    (hsearch : env.search v 8 = .ok rs)
    (hhigh : rs.filter (fun x => decide ((15/100 : ℚ) < x.score)) ≠ [])
    (hres : (processCareerQuestion env st q cid web).1 = .ok r) :
    r.confidence =
      (if r.webSources ≠ [] then
        min (98/100 : ℚ)
          (min (95/100 : ℚ)
            ((((rs.filter fun x => decide ((15/100 : ℚ) < x.score)).map (·.score)).sum
              / ((rs.filter fun x => decide ((15/100 : ℚ) < x.score)).length : ℚ)) + 2/10)
            + 1/10)
      else
        min (95/100 : ℚ)
          ((((rs.filter fun x => decide ((15/100 : ℚ) < x.score)).map (·.score)).sum
            / ((rs.filter fun x => decide ((15/100 : ℚ) < x.score)).length : ℚ)) + 2/10)) := by
  rw [processCareerQuestion_after_search env st q cid web v rs hlearn hemb hsearch] at hres
  obtain ⟨hs, hrel, hw, hu, hc⟩ :=
    careerTier_high env (getConversationContext st cid 5) q web rs r hhigh hres
  rw [hc, hw]
  by_cases hweb : (careerWebBlock env q web).1 = []
  · simp [hweb]
  · have hpos : 0 < (careerWebBlock env q web).1.length := List.length_pos.mpr hweb
    simp [hweb, hpos]

/-- Witness for the confidence formula: mean 0.5 without web sources
yields exactly 0.7. -/
theorem highTier_confidence_witness :
    (processCareerQuestion envConf emptyFeedbackState "học phí" "s" false).1
        = .ok rConf
    ∧ rConf.confidence = 7/10
    ∧ rConf.confidence =
      (if rConf.webSources ≠ [] then
        min (98/100 : ℚ)
          (min (95/100 : ℚ)
            (((([resHalf].filter fun x => decide ((15/100 : ℚ) < x.score)).map (·.score)).sum
              / (([resHalf].filter fun x => decide ((15/100 : ℚ) < x.score)).length : ℚ)) + 2/10)
            + 1/10)
      else
        min (95/100 : ℚ)
          (((([resHalf].filter fun x => decide ((15/100 : ℚ) < x.score)).map (·.score)).sum
            / (([resHalf].filter fun x => decide ((15/100 : ℚ) < x.score)).length : ℚ)) + 2/10)) := by
  have hfil : ([resHalf].filter fun x => decide ((15/100 : ℚ) < x.score)) = [resHalf] := by
    norm_num [List.filter_cons, resHalf]
  have hhigh : ([resHalf].filter fun x => decide ((15/100 : ℚ) < x.score)) ≠ [] := by
    rw [hfil]
    exact List.cons_ne_nil _ _
  have hres : (processCareerQuestion envConf emptyFeedbackState "học phí" "s" false).1
      = .ok rConf := by
    rw [processCareerQuestion_after_search envConf emptyFeedbackState "học phí" "s"
      false [] [resHalf] (by decide) rfl rfl]
    simp only [careerTierResponse, hfil, careerWebBlock, envConf, envBenign]
    simp only [List.length_cons, List.length_nil, Nat.succ_ne_zero, if_false,
      Bool.false_eq_true, ite_false]
    simp only [rConf, Except.ok.injEq, CareerResult.mk.injEq]
    refine ⟨trivial, by decide, trivial, trivial, ?_, trivial⟩
    norm_num [resHalf, metaTextD, min_def]
  exact ⟨hres, rfl,
    highTier_confidence_formula envConf emptyFeedbackState "học phí" "s" false
      [] [resHalf] rConf (by decide) rfl rfl hhigh hres⟩

/-- C6 counterexample: on a grounded question whose embedding call
throws, the orchestrator does NOT downgrade to tier none and answer
from open-domain generation — the exception escapes to `askQuestion`'s
catch-all, which returns the fixed apology result, and the trace shows
the run stopped at the embedding call with no generation call at
all. -/
theorem retrieval_error_apology_counterexample :
    (askQuestion envEmbedFail emptyFeedbackState "học phí" "s" false).1
        = fallbackAnswerResult
    ∧ (askQuestion envEmbedFail emptyFeedbackState "học phí" "s" false).2.2
        = [Ev.embedCall]
    ∧ fallbackAnswerResult.answer = fallbackAnswerVi
    ∧ fallbackAnswerResult.confidence = 1/10 := by
  have hc : isCareerRelatedQuestion "học phí" = true := by decide
  have hl : getLearnedResponses
      (addMessage emptyFeedbackState "s" Role.user "học phí" none none) "học phí"
      = [] := by decide
  refine ⟨?_, ?_, rfl, rfl⟩ <;>
    simp [askQuestion, askQuestionTry, processCareerQuestion, hc, hl,
      envEmbedFail, envBenign]

/-- A `RetrievalError` (embedding or index failure) on the grounded path
with no learned answer yields the fixed apology result, and no
generation call (grounded or general) is made for the turn — the error
is not downgraded to tier none. -/
theorem retrieval_error_propagates_to_apology (env : Env) (st : FeedbackState)
    (q cid : String) (web : Bool)
    (hcareer : isCareerRelatedQuestion q = true)
    (hlearn : getLearnedResponses st q = [])
    (hfail : env.embed q = .error ()
      ∨ ∃ v, env.embed q = .ok v ∧ env.search v 8 = .error ()) :
    (askQuestion env st q cid web).1 = fallbackAnswerResult
    ∧ (askQuestion env st q cid web).2.2.filter isGenerateEv = [] := by
  have hl1 : getLearnedResponses (addMessage st cid Role.user q none none) q = [] := by
    rw [getLearnedResponses_addMessage]
    exact hlearn
  unfold askQuestion askQuestionTry
  simp only [hcareer, if_true]
  rcases hfail with hemb | ⟨v, hemb, hsearch⟩
  · simp [processCareerQuestion, hl1, hemb, isGenerateEv]
  · simp [processCareerQuestion, hl1, hemb, hsearch, isGenerateEv]

/-- Witness for the retrieval-error theorem at a concrete environment
whose embedding service throws. -/
theorem retrieval_error_witness :
    isCareerRelatedQuestion "học phí" = true
    ∧ getLearnedResponses emptyFeedbackState "học phí" = []
    ∧ envEmbedFail.embed "học phí" = .error ()
    ∧ (askQuestion envEmbedFail emptyFeedbackState "học phí" "s" false).1
        = fallbackAnswerResult :=
  ⟨by decide, by decide, rfl,
    (retrieval_error_propagates_to_apology envEmbedFail emptyFeedbackState
      "học phí" "s" false (by decide) (by decide) (Or.inl rfl)).1⟩

/-- If every grounded generation call throws, the tier logic always
escapes with an error (each of its three branches ends in a generation
call). -/
theorem careerTier_error_of_genfail (env : Env) (ctx : List CtxMessage)
    (q : String) (web : Bool) (rs : List SearchResult)
    (hgen : ∀ a b c, env.generate a b c = .error ()) :
    ∃ e evs, careerTierResponse env ctx q web rs = (.error e, evs) := by
  simp only [careerTierResponse]
  repeat' split
  all_goals
    first
      | exact ⟨_, _, rfl⟩
      | (exfalso; simp_all [hgen])

/-- If every grounded generation call throws and there is no learned
answer, `processCareerQuestion` always escapes with an error. -/
theorem processCareer_error_of_genfail (env : Env) (st : FeedbackState)
    (q cid : String) (web : Bool)
    (hlearn : getLearnedResponses st q = [])
    (hgen : ∀ a b c, env.generate a b c = .error ()) :
    ∃ e evs, processCareerQuestion env st q cid web = (.error e, evs) := by
  unfold processCareerQuestion
  rw [hlearn]
  simp only [List.length_nil, gt_iff_lt, Nat.lt_irrefl, if_false]
  cases hemb : env.embed q with
  | error e => exact ⟨e, _, rfl⟩
  | ok v =>
    dsimp only
    cases hsearch : env.search v 8 with
    | error e => exact ⟨e, _, rfl⟩
    | ok rs =>
      dsimp only
      exact careerTier_error_of_genfail env (getConversationContext st cid 5)
        q web rs hgen

/-- C7 counterexample: when the generation call fails on a grounded
question, the conversation state afterwards holds ONLY the user's
question turn — the apology assistant turn is not appended (the catch
handler returns without logging it) — while the caller still receives
the fixed apology result. -/
theorem generation_error_turns_counterexample :
    ((askQuestion envGenFail emptyFeedbackState "học phí" "s" false).2.1).conversations
      = [("s", [{ role := Role.user, content := "học phí",
                  isCareerRelated := none, sources := none }])]
    ∧ (askQuestion envGenFail emptyFeedbackState "học phí" "s" false).1
        = fallbackAnswerResult := by
  have hc : isCareerRelatedQuestion "học phí" = true := by decide
  have hl : getLearnedResponses
      (addMessage emptyFeedbackState "s" Role.user "học phí" none none) "học phí"
      = [] := by decide
  obtain ⟨e, evs, hpc⟩ := processCareer_error_of_genfail envGenFail
    (addMessage emptyFeedbackState "s" Role.user "học phí" none none)
    "học phí" "s" false hl (fun _ _ _ => rfl)
  unfold askQuestion askQuestionTry
  simp only [hc, if_true, hpc]
  exact ⟨by decide, trivial⟩

/-- C7 amended: if the grounded generation service fails (and no learned
answer short-circuits), `askQuestion` returns the fixed apology result
(confidence 0.1, not career-related), and the conversation state gains
only the user's question turn — the apology turn is not appended. -/
theorem generation_error_apology_user_turn_only (env : Env) (st : FeedbackState)
    (q cid : String) (web : Bool)
    (hcareer : isCareerRelatedQuestion q = true)
    (hlearn : getLearnedResponses st q = [])
    (hgen : ∀ a b c, env.generate a b c = .error ()) :
    (askQuestion env st q cid web).1 = fallbackAnswerResult
    ∧ (askQuestion env st q cid web).2.1
        = addMessage st cid Role.user q none none := by
  have hl1 : getLearnedResponses (addMessage st cid Role.user q none none) q = [] := by
    rw [getLearnedResponses_addMessage]
    exact hlearn
  obtain ⟨e, evs, hpc⟩ := processCareer_error_of_genfail env
    (addMessage st cid Role.user q none none) q cid web hl1 hgen
  unfold askQuestion askQuestionTry
  simp only [hcareer, if_true, hpc]
  exact ⟨trivial, trivial⟩

/-- Witness for the generation-failure theorem at a concrete
environment whose generation service throws. -/
theorem generation_error_witness :
    isCareerRelatedQuestion "học phí" = true
    ∧ getLearnedResponses emptyFeedbackState "học phí" = []
    ∧ envGenFail.generate "a" "b" "c" = .error ()
    ∧ (askQuestion envGenFail emptyFeedbackState "học phí" "s" false).1
        = fallbackAnswerResult :=
  ⟨by decide, by decide, rfl,
    (generation_error_apology_user_turn_only envGenFail emptyFeedbackState
      "học phí" "s" false (by decide) (by decide) (fun _ _ _ => rfl)).1⟩

/-- String-append bookkeeping: a block of a block is a block. -/
theorem substring_of_parts {p ct c a b a2 b2 t : String}
    (hp : p = a ++ ((ct ++ c) ++ b)) (hct : ct = a2 ++ t ++ b2) :
    ∃ x y, p = x ++ (t ++ y) := by
  refine ⟨a ++ a2, b2 ++ (c ++ b), ?_⟩
  subst hct
  subst hp
  simp [String.append_assoc]

/-- On a non-empty high tier, the tier logic issues its generation call
with a prompt built over the joined high-tier passage texts (followed by
the optional web suffix). -/
theorem careerTier_high_prompt (env : Env) (ctx : List CtxMessage) (q : String)
    (web : Bool) (rs : List SearchResult)
    (hhigh : rs.filter (fun x => decide ((15/100 : ℚ) < x.score)) ≠ []) :
    ∃ p c, Ev.generateCall p ∈ (careerTierResponse env ctx q web rs).2
      ∧ p = buildContextualCareerPrompt env q ctx
          (jsJoin "\n\n"
            ((rs.filter fun x => decide ((15/100 : ℚ) < x.score)).map metaTextD) ++ c) := by
  have hlen : ¬ ((rs.filter fun x => decide ((15/100 : ℚ) < x.score)).length = 0) := by
    simpa [List.length_eq_zero] using hhigh
  simp only [careerTierResponse]
  rw [if_neg hlen]
  by_cases hwc : (careerWebBlock env q web).2.1 ≠ ""
  · rw [if_pos hwc]
    refine ⟨buildContextualCareerPrompt env q ctx
        (jsJoin "\n\n"
            ((rs.filter fun x => decide ((15/100 : ℚ) < x.score)).map metaTextD)
          ++ "\n\nTHÔNG TIN BỔ SUNG TỪ WEB:\n" ++ (careerWebBlock env q web).2.1),
      "\n\nTHÔNG TIN BỔ SUNG TỪ WEB:\n" ++ (careerWebBlock env q web).2.1, ?_, ?_⟩
    · split <;> simp
    · rw [String.append_assoc]
  · rw [if_neg hwc]
    refine ⟨buildContextualCareerPrompt env q ctx
        (jsJoin "\n\n"
          ((rs.filter fun x => decide ((15/100 : ℚ) < x.score)).map metaTextD)),
      "", ?_, ?_⟩
    · split <;> simp
    · rw [String.append_empty]

/-- C9 amended: for a successful high-tier grounded answer, the prompt
handed to the generator contains the `metadata.text` value of every
admitted passage (the empty string when the key is absent, as for
chunks written by `ingestDocuments`) as a contiguous block — but NOT
preceded by per-passage source labels — and the returned sources are
the distinct `metadata.source` labels of the admitted passages, each
exactly once, in first-occurrence order, with `"unknown"` filtered
out. -/
theorem grounded_prompt_and_source_dedup (env : Env) (st : FeedbackState)
    (q cid : String) (web : Bool) (v : List ℚ) (rs : List SearchResult)
    (r : CareerResult)
    (hlearn : getLearnedResponses st q = [])
    (hemb : env.embed q = .ok v)
    (hsearch : env.search v 8 = .ok rs)
    (hhigh : rs.filter (fun x => decide ((15/100 : ℚ) < x.score)) ≠ [])
    (hres : (processCareerQuestion env st q cid web).1 = .ok r) :
    (∃ p, Ev.generateCall p ∈ (processCareerQuestion env st q cid web).2
      ∧ ∀ t ∈ (rs.filter (fun x => decide ((15/100 : ℚ) < x.score))).map metaTextD,
          ∃ x y, p = x ++ (t ++ y))
    ∧ r.sources = jsSetDedup
        (((rs.filter fun x => decide ((15/100 : ℚ) < x.score)).map metaSourceD).filter
          fun s => s ≠ "unknown")
    ∧ r.sources.Nodup
    ∧ (∀ s, s ∈ r.sources ↔
        s ∈ ((rs.filter fun x => decide ((15/100 : ℚ) < x.score)).map metaSourceD).filter
          fun s => s ≠ "unknown") := by
  rw [processCareerQuestion_after_search env st q cid web v rs hlearn hemb hsearch] at hres ⊢
  obtain ⟨hs, hrel, hw, hu, hc⟩ :=
    careerTier_high env (getConversationContext st cid 5) q web rs r hhigh hres
  obtain ⟨p, c, hmem, hp⟩ :=
    careerTier_high_prompt env (getConversationContext st cid 5) q web rs hhigh
  refine ⟨⟨p, hmem, fun t ht => ?_⟩, hs, ?_, fun s => ?_⟩
  · obtain ⟨a, b, hab⟩ := buildContextualCareerPrompt_decomp env q
      (getConversationContext st cid 5)
      (jsJoin "\n\n"
        ((rs.filter fun x => decide ((15/100 : ℚ) < x.score)).map metaTextD) ++ c)
    obtain ⟨a2, b2, h2⟩ := jsJoin_decomp "\n\n"
      ((rs.filter fun x => decide ((15/100 : ℚ) < x.score)).map metaTextD) t ht
    exact substring_of_parts (hp.trans hab) h2
  · rw [hs]
    exact jsSetDedup_nodup _
  · rw [hs]
    exact mem_jsSetDedup _ s

/-- Closed form of a web-disabled high-tier run whose generation call
returns `ans`: the result record and the exact three-event trace. -/
theorem careerTier_high_run_noweb (env : Env) (ctx : List CtxMessage)
    (q : String) (rs : List SearchResult) (ans : String)
    (hhigh : rs.filter (fun x => decide ((15/100 : ℚ) < x.score)) ≠ [])
    (hgen : ∀ a b c, env.generate a b c = .ok ans) :
    careerTierResponse env ctx q false rs
      = (.ok { answer := ans,
               sources := jsSetDedup
                 (((rs.filter fun x => decide ((15/100 : ℚ) < x.score)).map
                   metaSourceD).filter fun s => s ≠ "unknown"),
               webSources := [], hasRelevantContent := true,
               confidence := min (95/100 : ℚ)
                 ((((rs.filter fun x => decide ((15/100 : ℚ) < x.score)).map
                     (·.score)).sum
                   / ((rs.filter fun x => decide ((15/100 : ℚ) < x.score)).length : ℚ))
                   + 2/10),
               usedWebSearch := false },
         [Ev.embedCall, Ev.indexQuery 8,
          Ev.generateCall (buildContextualCareerPrompt env q ctx
            (jsJoin "\n\n"
              ((rs.filter fun x => decide ((15/100 : ℚ) < x.score)).map metaTextD)))]) := by
  have hlen : ¬ ((rs.filter fun x => decide ((15/100 : ℚ) < x.score)).length = 0) := by
    simpa [List.length_eq_zero] using hhigh
  simp only [careerTierResponse]
  rw [if_neg hlen]
  rw [show careerWebBlock env q false = ([], "", false, []) from rfl]
  rw [hgen]
  simp

set_option maxRecDepth 16384 in
/-- C9 counterexample: a high-tier grounded answer built from a chunk
stored by `ingestDocuments` hands the generator a prompt that does NOT
contain the chunk's stored text at all (let alone preceded by its source
label): the reader looks up `metadata.text` while ingestion stores the
text under `metadata.content`, so the prompt's document section is
empty.  The run is otherwise a normal grounded high-tier success with
the passage's source attributed. -/
theorem prompt_omits_passage_text_counterexample :
    ((processCareerQuestion envIngest emptyFeedbackState "học phí" "s" false).2.filterMap
        evPrompt).all (fun p => !(jsIncludes p "ZNOIDUNGHOCPHI")) = true
    ∧ (processCareerQuestion envIngest emptyFeedbackState "học phí" "s" false).2.filterMap
        evPrompt ≠ []
    ∧ (processCareerQuestion envIngest emptyFeedbackState "học phí" "s" false).1
        = .ok rIngest := by
  have hfil : ([resIngest].filter fun x => decide ((15/100 : ℚ) < x.score))
      = [resIngest] := by
    norm_num [List.filter_cons, resIngest]
  have hhigh : ([resIngest].filter fun x => decide ((15/100 : ℚ) < x.score)) ≠ [] := by
    rw [hfil]
    exact List.cons_ne_nil _ _
  have step1 := processCareerQuestion_after_search envIngest emptyFeedbackState
    "học phí" "s" false [] [resIngest] (by decide) rfl rfl
  have hrun := careerTier_high_run_noweb envIngest
    (getConversationContext emptyFeedbackState "s" 5) "học phí" [resIngest] "ANS"
    hhigh (fun _ _ _ => rfl)
  refine ⟨?_, ?_, ?_⟩
  · rw [step1, hrun, hfil]
    decide
  · rw [step1, hrun]
    simp [evPrompt]
  · rw [step1, hrun, hfil]
    dsimp only
    simp only [Except.ok.injEq, rIngest, CareerResult.mk.injEq]
    refine ⟨trivial, by decide, trivial, trivial, ?_, trivial⟩
    norm_num [resIngest, min_def]

set_option maxRecDepth 16384 in
/-- Witness for the amended C9 theorem at the concrete `envConf` run
(one passage with `metadata.text` present and source `doc.md`). -/
theorem grounded_prompt_witness :
    ([resHalf].filter (fun x => decide ((15/100 : ℚ) < x.score)) ≠ [])
    ∧ (processCareerQuestion envConf emptyFeedbackState "học phí" "s" false).1
        = .ok rConf
    ∧ rConf.sources.Nodup := by
  have hfil : ([resHalf].filter fun x => decide ((15/100 : ℚ) < x.score))
      = [resHalf] := by
    norm_num [List.filter_cons, resHalf]
  have hhigh : ([resHalf].filter fun x => decide ((15/100 : ℚ) < x.score)) ≠ [] := by
    rw [hfil]
    exact List.cons_ne_nil _ _
  have hres : (processCareerQuestion envConf emptyFeedbackState "học phí" "s" false).1
      = .ok rConf := by
    have step1 := processCareerQuestion_after_search envConf emptyFeedbackState
      "học phí" "s" false [] [resHalf] (by decide) rfl rfl
    have hrun := careerTier_high_run_noweb envConf
      (getConversationContext emptyFeedbackState "s" 5) "học phí" [resHalf] "ANS"
      hhigh (fun _ _ _ => rfl)
    rw [step1, hrun, hfil]
    dsimp only
    simp only [Except.ok.injEq, rConf, CareerResult.mk.injEq]
    refine ⟨trivial, by decide, trivial, trivial, ?_, trivial⟩
    norm_num [resHalf, min_def]
  exact ⟨hhigh, hres,
    (grounded_prompt_and_source_dedup envConf emptyFeedbackState "học phí" "s"
      false [] [resHalf] rConf (by decide) rfl rfl hhigh hres).2.2.1⟩
